import Mathlib

/-!
Shallow embedding of the PlayCricket authentication core
(`src/backend/app/services/auth_service.py`, `app/core/security/password.py`, `mfa.py`, `jwt.py`,
`app/models/auth.py`, `app/services/role_service.py`, `app/api/routes/auth.py`)
and proofs about its refresh-token rotation, login lockout, MFA and RBAC logic.

Modelling conventions:
- timestamps are naturals (seconds); `none` models SQL NULL;
- SHA-256 / Argon2id are modelled as injective formal constructors
  (deterministic, collision-free, output distinct from any raw input);
- the `secrets` randomness used for jti values and raw tokens is supplied by a
  monotone per-session counter (`nonce`), which models freshness;
- each service method is a function from the committed database state to the
  (result, committed database state) pair.  SQLAlchemy rolls the session back
  when a service raises before `commit()` (`app/core/database.py get_db`), so
  on such error paths the returned state is the input state; paths that call
  `commit()` before raising return the flushed state.
-/

namespace PlayCricket

/-- Account status of a `users` row (`app/models/auth.py`, `UserStatus`). -/
inductive UserStatus where
  | active
  | locked
  | pending
deriving Repr, DecidableEq

/-- A `users` row, restricted to the columns the authentication core reads and
writes (`app/models/auth.py`, class `User`). -/
structure UserRec where
  id : Nat
  email : String
  passwordHash : String
  passwordVersion : Nat
  isEmailVerified : Bool
  mfaEnabled : Bool
  mfaSecret : Option String
  backupCodes : List String
  status : UserStatus
  failedLoginAttempts : Nat
  lockedUntil : Option Nat
  lastLoginAt : Option Nat
deriving Repr, DecidableEq

/-- A `refresh_tokens` row (`app/models/auth.py`, class `RefreshToken`).
`id` is the autoincrement primary key, assigned when the INSERT is flushed. -/
structure RefreshTokenRec where
  id : Nat
  userId : Nat
  tokenHash : String
  jti : String
  expiresAt : Nat
  revokedAt : Option Nat
  replacedBy : Option Nat
deriving Repr, DecidableEq

/-- Validity of a refresh-token row (`RefreshToken.is_valid`):
not revoked and not expired. -/
def RefreshTokenRec.is_valid (t : RefreshTokenRec) (now : Nat) : Bool :=
  t.revokedAt == none && decide (t.expiresAt > now)

/-- A `password_reset_tokens` row (`app/models/auth.py`, `PasswordResetToken`). -/
structure PasswordResetTokenRec where
  userId : Nat
  tokenHash : String
  expiresAt : Nat
  usedAt : Option Nat
deriving Repr, DecidableEq

/-- Validity of a reset-token row (`PasswordResetToken.is_valid`):
unused and not expired. -/
def PasswordResetTokenRec.is_valid (t : PasswordResetTokenRec) (now : Nat) : Bool :=
  t.usedAt == none && decide (t.expiresAt > now)

/-- A `roles` row (`app/models/auth.py`, class `Role`). -/
structure RoleRec where
  id : Nat
  code : String
deriving Repr, DecidableEq

/-- A `user_roles` row (`app/models/auth.py`, class `UserRole`). -/
structure UserRoleRec where
  id : Nat
  userId : Nat
  roleId : Nat
deriving Repr, DecidableEq

/-- An `audit_log` row (`app/models/auth.py`, class `AuditLog`), restricted to
the fields the claims inspect. -/
structure AuditRec where
  userId : Option Nat
  action : String
  status : String
deriving Repr, DecidableEq

/-- Committed database state: the tables the authentication core touches,
the autoincrement sequence for `refresh_tokens.id`, and the freshness
counter standing in for `secrets` randomness. -/
structure DB where
  users : List UserRec
  roles : List RoleRec
  userRoles : List UserRoleRec
  refreshTokens : List RefreshTokenRec
  resetTokens : List PasswordResetTokenRec
  audits : List AuditRec
  nextTokenId : Nat
  nonce : Nat
deriving Repr, DecidableEq

/-- Appends an audit row (`self.db.add(audit)` followed by commit). -/
def DB.addAudit (db : DB) (a : AuditRec) : DB :=
  { db with audits := db.audits ++ [a] }

/-- Writes back a mutated `users` row by primary key at commit. -/
def DB.updateUser (db : DB) (u : UserRec) : DB :=
  { db with users := db.users.map (fun x => if x.id == u.id then u else x) }

/-- Model of Python `str.lower()` (used as `login.email.lower()` etc.). -/
def lower_str (s : String) : String :=
  String.mk (s.toList.map Char.toLower)

/-- Model of `hash_token` (`password.py` 252-262): the SHA-256 hex digest,
modelled as an injective formal constructor. -/
def hash_token (token : String) : String :=
  "sha256:" ++ token

/-- Model of `hash_password` (`password.py` 37-50): Argon2id hash of the
password, modelled as an injective formal constructor. -/
def hash_password (password : String) : String :=
  "argon2id:" ++ password

/-- Model of `verify_password` (`password.py` 53-67): true iff the hash was
produced from the same password (ideal KDF); returns false instead of
raising on malformed input. -/
def verify_password (plain hashed : String) : Bool :=
  hashed == hash_password plain

/-- The `errors` list of `validate_password_strength` (`password.py` 107-115):
too short below 8 characters, else too long above 128. -/
def validate_password_strength_errors (p : String) : List String :=
  if p.length < 8 then ["Password must be at least 8 characters long"]
  else if p.length > 128 then ["Password must not exceed 128 characters"]
  else []

/-- The `valid` field of `validate_password_strength` (`password.py` 163):
no errors. -/
def validate_password_strength_valid (p : String) : Bool :=
  (validate_password_strength_errors p).isEmpty

/-- Model of Python `code.replace("-", "")` on backup codes. -/
def strip_dashes (code : String) : String :=
  String.mk (code.toList.filter (fun c => c != '-'))

/-- Model of `hash_backup_codes` (`password.py` 283-293). -/
def hash_backup_codes (codes : List String) : List String :=
  codes.map (fun c => hash_token (strip_dashes c))

/-- Model of `verify_backup_code` (`password.py` 296-308). -/
def verify_backup_code (plain : String) (hashed : List String) : Bool :=
  hashed.contains (hash_token (strip_dashes plain))

/-- Model of `validate_totp_code_format` (`mfa.py` 140-150):
`code.isdigit() and len(code) == 6`. -/
def validate_totp_code_format (code : String) : Bool :=
  code.toList.all Char.isDigit && code.length == 6

/-- External pure collaborators abstracted by the embedding:
`totpVerify s c` models `pyotp.TOTP(s).verify(c, valid_window=1)` at the
ambient instant, and `needsRehash` models `pwd_context.needs_update`. -/
structure Env where
  totpVerify : String → String → Bool
  needsRehash : String → Bool

/-- Model of `verify_totp_code` (`mfa.py` 84-101): the pyotp check; any
exception (for example a missing secret) is caught and yields false. -/
def verify_totp_code (env : Env) (secret : Option String) (code : String) : Bool :=
  match secret with
  | none => false
  | some s => env.totpVerify s code

/-- Result object of `verify_mfa_code` (`mfa.py`, `MFAVerificationResult`). -/
structure MFAVerificationResult where
  valid : Bool
  method : Option String
  backup_code_used : Option String
deriving Repr, DecidableEq

/-- Model of `verify_mfa_code` (`mfa.py` 160-191): TOTP first, then backup
codes; when a backup code matches, `backup_code_used` carries the PLAIN code
as supplied by the caller. -/
def verify_mfa_code (env : Env) (secret : Option String) (code : String)
    (backupCodes : List String) : MFAVerificationResult :=
  if validate_totp_code_format code && verify_totp_code env secret code then
    { valid := true, method := some "totp", backup_code_used := none }
  else if !backupCodes.isEmpty && verify_backup_code code backupCodes then
    { valid := true, method := some "backup_code", backup_code_used := some code }
  else
    { valid := false, method := none, backup_code_used := none }

/-- Claims carried by a refresh JWT (`jwt.py` `create_refresh_token`). -/
structure RefreshPayload where
  sub : Nat
  email : String
  ver : Nat
  jti : String
  exp : Nat
deriving Repr, DecidableEq

/-- Serialises the refresh-JWT claims into the bearer string
(`jwt.py` `create_refresh_token`): the claims ride inside the token and the
HMAC signature plus the `type` claim are modelled by the leading kind tag.
Claim fields are assumed free of the separator character. -/
def encode_refresh_token (p : RefreshPayload) : String :=
  "refresh|" ++ toString p.sub ++ "|" ++ p.email ++ "|" ++ toString p.ver ++
    "|" ++ p.jti ++ "|" ++ toString p.exp

/-- Splits a character list at every separator bar. -/
def splitBar : List Char → List (List Char)
  | [] => [[]]
  | c :: cs =>
    match splitBar cs with
    | [] => [[]]
    | g :: gs => if c = '|' then [] :: g :: gs else (c :: g) :: gs

/-- Parses a decimal numeral from characters; none on empty or non-digit. -/
def natFromChars (cs : List Char) : Option Nat :=
  if cs.isEmpty then none
  else
    cs.foldl (fun acc c =>
      match acc with
      | none => none
      | some n => if c.isDigit then some (n * 10 + (c.toNat - 48)) else none)
      (some 0)

/-- Model of `verify_refresh_token` (`jwt.py` 190-219): rejects a token that
is not a well-signed refresh-kind token or whose expiry is not in the
future; otherwise returns the decoded claims. -/
def verify_refresh_token (token : String) (now : Nat) : Option RefreshPayload :=
  match splitBar token.toList with
  | [ty, sub, email, ver, jti, exp] =>
    if ty = "refresh".toList then
      match natFromChars sub, natFromChars ver, natFromChars exp with
      | some s, some v, some e =>
        if now < e then
          some { sub := s, email := String.mk email, ver := v,
                 jti := String.mk jti, exp := e }
        else none
      | _, _, _ => none
    else none
  | _ => none

/-- Security configuration constant (`auth_service.py` 63). -/
def MAX_FAILED_LOGIN_ATTEMPTS : Nat := 5

/-- Security configuration constant (`auth_service.py` 64). -/
def ACCOUNT_LOCKOUT_DURATION_MINUTES : Nat := 30

/-- Refresh token lifetime (`jwt.py`, `REFRESH_TOKEN_EXPIRE_DAYS`). -/
def REFRESH_TOKEN_EXPIRE_DAYS : Nat := 30

/-- Model of `create_token_pair` (`jwt.py` 307-340), with the `secrets`
randomness for the jti supplied by the session nonce: returns
(access token, refresh token, refresh jti, refresh expiry). -/
def create_token_pair (nonce : Nat) (userId : Nat) (email : String)
    (passwordVersion : Nat) (now : Nat) : String × String × String × Nat :=
  let jti := "jti_" ++ toString nonce
  let exp := now + REFRESH_TOKEN_EXPIRE_DAYS * 86400
  let refresh := encode_refresh_token
    { sub := userId, email := email, ver := passwordVersion, jti := jti, exp := exp }
  let access := "access_" ++ toString nonce
  (access, refresh, jti, exp)

/-- Value of the `id` attribute of a SQLAlchemy object that has been `add`ed
to the session but not flushed: the autoincrement primary key has not been
assigned yet, so reading the attribute yields None.
`AuthService.refresh_access_token` (`auth_service.py` 564-570) reads
`new_token_record.id` between `self.db.add(new_token_record)` and
`await self.db.commit()` with no intervening flush or query, so the value it
assigns to `token_record.replaced_by` is None. -/
def unflushed_record_id : Option Nat := none

/-- Model of `AuthService._revoke_token_family` (`auth_service.py` 1003-1037):
collects the rows whose id is the given token id or whose `replaced_by`
points at it, adds their `replaced_by` targets, and revokes every collected,
not-yet-revoked row.  (The collection is a single query plus one hop, not an
iterated walk.) -/
def revoke_token_family (db : DB) (now : Nat) (tokenId : Nat) (userId : Nat) : DB :=
  let tokens := db.refreshTokens.filter
    (fun t => t.userId == userId && (t.id == tokenId || t.replacedBy == some tokenId))
  let allTokenIds := tokens.foldl
    (fun acc t =>
      (acc ++ [t.id]) ++ (match t.replacedBy with | some r => [r] | none => []))
    [tokenId]
  { db with refreshTokens := db.refreshTokens.map (fun t =>
      if allTokenIds.contains t.id && t.revokedAt == none then
        { t with revokedAt := some now }
      else t) }

/-- Model of `AuthService.refresh_access_token` (`auth_service.py` 440-572):
verify the JWT, look the presented token up by hash, rotate it when the row
is valid, otherwise run reuse detection by jti over rows whose `replaced_by`
is non-null. -/
def refresh_access_token (db : DB) (now : Nat) (refreshToken : String) :
    Except String (String × String) × DB :=
  match verify_refresh_token refreshToken now with
  | none => (.error "INVALID_REFRESH_TOKEN", db)
  | some payload =>
    let userId := payload.sub
    let tokenHash := hash_token refreshToken
    let found := db.refreshTokens.find?
      (fun t => t.tokenHash == tokenHash && t.userId == userId)
    let validRecord := match found with
      | some t => if t.is_valid now then some t else none
      | none => none
    match validRecord with
    | none =>
      match db.refreshTokens.find?
          (fun t => t.jti == payload.jti && t.userId == userId && t.replacedBy != none) with
      | some reused =>
        let db1 := revoke_token_family db now reused.id userId
        let db2 := db1.addAudit
          { userId := some userId, action := "TOKEN_REUSE_DETECTED", status := "security_alert" }
        (.error "TOKEN_REUSE_DETECTED", db2)
      | none => (.error "INVALID_REFRESH_TOKEN", db)
    | some tokenRecord =>
      match db.users.find? (fun u => u.id == userId) with
      | none => (.error "ACCOUNT_NOT_ACTIVE", db)
      | some user =>
        if user.status ≠ .active then (.error "ACCOUNT_NOT_ACTIVE", db)
        else if payload.ver ≠ user.passwordVersion then (.error "PASSWORD_CHANGED", db)
        else
          let pair := create_token_pair db.nonce user.id user.email user.passwordVersion now
          let newRecord : RefreshTokenRec :=
            { id := db.nextTokenId, userId := user.id,
              tokenHash := hash_token pair.2.1, jti := pair.2.2.1,
              expiresAt := pair.2.2.2, revokedAt := none, replacedBy := none }
          let oldUpdated :=
            { tokenRecord with replacedBy := unflushed_record_id, revokedAt := some now }
          let db1 := { db with
            refreshTokens :=
              (db.refreshTokens.map
                (fun t => if t.id == tokenRecord.id then oldUpdated else t)) ++ [newRecord],
            nextTokenId := db.nextTokenId + 1,
            nonce := db.nonce + 1 }
          (.ok (pair.1, pair.2.1), db1)

/-- Success tail of `AuthService.authenticate_user` (`auth_service.py`
385-438): lazy rehash, counter reset, token issuance, session row, audit,
commit. -/
def authenticate_user_success (env : Env) (db : DB) (now : Nat) (password : String)
    (user : UserRec) : Except String (UserRec × String × String) × DB :=
  let user2 :=
    if env.needsRehash user.passwordHash then
      { user with passwordHash := hash_password password,
                  passwordVersion := user.passwordVersion + 1 }
    else user
  let user3 := { user2 with failedLoginAttempts := 0, lastLoginAt := some now }
  let pair := create_token_pair db.nonce user3.id user3.email user3.passwordVersion now
  let tokenRecord : RefreshTokenRec :=
    { id := db.nextTokenId, userId := user3.id, tokenHash := hash_token pair.2.1,
      jti := pair.2.2.1, expiresAt := pair.2.2.2, revokedAt := none, replacedBy := none }
  let db1 := { (db.updateUser user3) with
    refreshTokens := db.refreshTokens ++ [tokenRecord]
    nextTokenId := db.nextTokenId + 1
    nonce := db.nonce + 1 }
  let db2 := db1.addAudit
    { userId := some user3.id, action := "LOGIN_SUCCESS", status := "success" }
  (.ok (user3, pair.1, pair.2.1), db2)

/-- The lock-expiry test at `auth_service.py` 291:
`user.locked_until and user.locked_until > datetime.utcnow()`. -/
def locked_until_in_future (lockedUntil : Option Nat) (now : Nat) : Bool :=
  match lockedUntil with
  | some t => decide (t > now)
  | none => false

/-- Continuation of `authenticate_user` after the locked-status gate
(`auth_service.py` 303-438), applied to the possibly auto-unlocked user:
pending check, password check with lockout counting, MFA gate, success
tail.  (The Python locals `attempts`, `verification` and the post-MFA user
are inlined; the called functions are pure.) -/
def authenticate_user_checked (env : Env) (db : DB) (now : Nat)
    (password : String) (otpCode : Option String) (user1 : UserRec) :
    Except String (UserRec × String × String) × DB :=
  if user1.status = .pending then
    (.error "EMAIL_NOT_VERIFIED", db)
  else if !(verify_password password user1.passwordHash) then
    (.error "INVALID_CREDENTIALS",
      (db.updateUser
        (if user1.failedLoginAttempts + 1 ≥ MAX_FAILED_LOGIN_ATTEMPTS then
          { user1 with
            failedLoginAttempts := user1.failedLoginAttempts + 1
            status := .locked
            lockedUntil := some (now + ACCOUNT_LOCKOUT_DURATION_MINUTES * 60) }
         else
          { user1 with failedLoginAttempts := user1.failedLoginAttempts + 1 })).addAudit
        { userId := some user1.id, action := "LOGIN_FAILED", status := "failure" })
  else if user1.mfaEnabled then
    match otpCode with
    | none => (.error "MFA_REQUIRED", db)
    | some code =>
      if !(verify_mfa_code env user1.mfaSecret code user1.backupCodes).valid then
        (.error "INVALID_MFA_CODE",
          (db.updateUser user1).addAudit
            { userId := some user1.id, action := "MFA_FAILED", status := "failure" })
      else
        authenticate_user_success env db now password
          (match (verify_mfa_code env user1.mfaSecret code user1.backupCodes).backup_code_used with
           | some used =>
             { user1 with backupCodes := user1.backupCodes.filter (fun c => c != used) }
           | none => user1)
  else
    authenticate_user_success env db now password user1

/-- Model of `AuthService.authenticate_user` (`auth_service.py` 242-438):
the login state machine over `User.status`, the failed-attempt lockout
counter, and the MFA gate. -/
def authenticate_user (env : Env) (db : DB) (now : Nat)
    (email password : String) (otpCode : Option String) :
    Except String (UserRec × String × String) × DB :=
  match db.users.find? (fun u => u.email == lower_str email) with
  | none =>
    (.error "INVALID_CREDENTIALS",
      db.addAudit { userId := none, action := "LOGIN_FAILED", status := "failure" })
  | some user0 =>
    if user0.status = .locked then
      if locked_until_in_future user0.lockedUntil now then
        (.error "ACCOUNT_LOCKED", db)
      else
        authenticate_user_checked env db now password otpCode
          { user0 with status := .active, failedLoginAttempts := 0, lockedUntil := none }
    else
      authenticate_user_checked env db now password otpCode user0

/-- Model of `AuthService.reset_password` (`auth_service.py` 693-780):
strength check, token check, rehash and version bump, mark token used,
revoke all active refresh tokens of the user, audit. -/
def reset_password (db : DB) (now : Nat) (token newPassword : String) :
    Except String UserRec × DB :=
  if !(validate_password_strength_valid newPassword) then (.error "WEAK_PASSWORD", db)
  else
    let tokenHash := hash_token token
    match db.resetTokens.find? (fun t => t.tokenHash == tokenHash && t.usedAt == none) with
    | none => (.error "INVALID_TOKEN", db)
    | some resetTok =>
      if !(resetTok.is_valid now) then (.error "INVALID_TOKEN", db)
      else
        match db.users.find? (fun u => u.id == resetTok.userId) with
        | none => (.error "USER_NOT_FOUND", db)
        | some user =>
          let user1 := { user with passwordHash := hash_password newPassword,
                                   passwordVersion := user.passwordVersion + 1 }
          let db1 := db.updateUser user1
          let db2 := { db1 with
            resetTokens := db1.resetTokens.map
              (fun (t : PasswordResetTokenRec) =>
                if t.tokenHash == tokenHash then { t with usedAt := some now } else t)
            refreshTokens := db1.refreshTokens.map
              (fun (t : RefreshTokenRec) =>
                if t.userId == user.id && t.revokedAt == none then
                  { t with revokedAt := some now }
                else t) }
          let db3 := db2.addAudit
            { userId := some user.id, action := "PASSWORD_RESET", status := "success" }
          (.ok user1, db3)

/-- Model of `AuthService.request_password_reset` (`auth_service.py`
613-691): returns the raw reset token for an existing user (marking older
unconsumed tokens used) and None for an unknown email; both paths audit. -/
def request_password_reset (db : DB) (now : Nat) (email : String) :
    Option String × DB :=
  match db.users.find? (fun u => u.email == lower_str email) with
  | none =>
    (none, db.addAudit
      { userId := none, action := "PASSWORD_RESET_REQUESTED", status := "info" })
  | some user =>
    let resetToken := "reset_" ++ toString db.nonce
    let tokenHash := hash_token resetToken
    let db1 := { db with
      resetTokens :=
        (db.resetTokens.map
          (fun (t : PasswordResetTokenRec) =>
            if t.userId == user.id && t.usedAt == none then
              { t with usedAt := some now }
            else t))
        ++ [({ userId := user.id, tokenHash := tokenHash,
               expiresAt := now + 3600, usedAt := none } : PasswordResetTokenRec)]
      nonce := db.nonce + 1 }
    let db2 := db1.addAudit
      { userId := some user.id, action := "PASSWORD_RESET_REQUESTED", status := "success" }
    (some resetToken, db2)

/-- Model of the `forgot_password` route (`app/api/routes/auth.py` 341-368):
runs `request_password_reset` and always answers the same success message;
the raw token never reaches the HTTP caller. -/
def forgot_password (db : DB) (now : Nat) (email : String) : String × DB :=
  let out := request_password_reset db now email
  ("If the email exists, a password reset link has been sent.", out.2)

/-- Model of `generate_totp_uri` (`mfa.py` 31-50). -/
def generate_totp_uri (secret : String) (email : String) : String :=
  "otpauth://totp/PlayCricket:" ++ email ++ "?secret=" ++ secret ++ "&issuer=PlayCricket"

/-- Model of `generate_qr_code` (`mfa.py` 53-81); the PNG rendering and
base64 step are abstracted as an injective encoding of the URI. -/
def generate_qr_code (uri : String) : String :=
  "data:image/png;base64," ++ uri

/-- Model of the module-level `setup_mfa` (`mfa.py` 118-137): it returns a
PLAIN 3-TUPLE `(secret, qr_code, uri)` — not an `MFASetupData` object — with
the secret supplied by the randomness parameter. -/
def mfa_setup_mfa (secret : String) (email : String) : String × String × String :=
  let uri := generate_totp_uri secret email
  let qr := generate_qr_code uri
  (secret, qr, uri)

/-- The `MFASetupResponse` schema (`app/schemas/auth.py` 134-139). -/
structure MFASetupResponse where
  secret : String
  qr_code : String
  backup_codes : List String
  uri : String
deriving Repr, DecidableEq

/-- Named-attribute access on a Python tuple value: a tuple exposes no
user-defined attributes, so every such access raises AttributeError with the
attribute name.  (`AuthService.setup_mfa` performs `mfa_data.secret` on the
tuple returned by `mfa.setup_mfa`.) -/
def tuple_getattr (_t : String × String × String) (attr : String) :
    Except String String :=
  Except.error attr

/-- Outcome of `AuthService.setup_mfa`: either the documented response, a
raised `AuthenticationError` with its error code, or an uncaught Python
AttributeError. -/
inductive SetupMfaOutcome where
  | ok (resp : MFASetupResponse)
  | authError (code : String)
  | attributeError (attr : String)
deriving Repr, DecidableEq

/-- Model of `AuthService.setup_mfa` (`auth_service.py` 782-810): looks the
user up, calls the module-level `setup_mfa`, generates backup codes (the
randomness is a parameter), and builds the response by reading the
attributes `secret`, `qr_code`, `uri` off the returned value. -/
def auth_setup_mfa (db : DB) (userId : Nat) (secret : String)
    (backupCodes : List String) : SetupMfaOutcome :=
  match db.users.find? (fun u => u.id == userId) with
  | none => .authError "USER_NOT_FOUND"
  | some user =>
    let mfaData := mfa_setup_mfa secret user.email
    match tuple_getattr mfaData "secret" with
    | .error a => .attributeError a
    | .ok s =>
      match tuple_getattr mfaData "qr_code", tuple_getattr mfaData "uri" with
      | .ok q, .ok u2 =>
        .ok { secret := s, qr_code := q, backup_codes := backupCodes, uri := u2 }
      | .error a, _ => .attributeError a
      | _, .error a => .attributeError a

/-- Model of `RoleService.remove_role` (`role_service.py` 108-177): user,
role and assignment must exist; removing the last assignment of a user is
rejected (the session is rolled back, so the state is unchanged); otherwise
the assignment row is deleted and the removal audited. -/
def remove_role (db : DB) (userId : Nat) (roleCode : String) (removedById : Nat) :
    Except String DB :=
  match db.users.find? (fun u => u.id == userId) with
  | none => .error "User not found"
  | some _ =>
    match db.roles.find? (fun r => r.code == roleCode) with
    | none => .error "Role not found"
    | some role =>
      match db.userRoles.find? (fun x => x.userId == userId && x.roleId == role.id) with
      | none => .error "User does not have role"
      | some userRole =>
        if (db.userRoles.filter (fun x => x.userId == userId)).length == 1 then
          .error "Cannot remove last role. Assign another role first."
        else
          .ok { db.addAudit
                  { userId := some removedById, action := "ROLE_REMOVED", status := "success" }
                with userRoles := db.userRoles.filter (fun x => x.id != userRole.id) }

/-! Concrete fixtures used by the theorems below. -/

/-- Environment in which every TOTP attempt fails and no hash needs a
rehash. -/
def envNoTotp : Env := { totpVerify := fun _ _ => false, needsRehash := fun _ => false }

/-- A verified, active user with no MFA. -/
def u1 : UserRec :=
  { id := 1, email := "a@x.com", passwordHash := hash_password "Secret123!",
    passwordVersion := 1, isEmailVerified := true, mfaEnabled := false,
    mfaSecret := none, backupCodes := [], status := .active,
    failedLoginAttempts := 0, lockedUntil := none, lastLoginAt := none }

/-- The raw refresh token `R0` held by user 1. -/
def r0 : String :=
  encode_refresh_token
    { sub := 1, email := "a@x.com", ver := 1, jti := "jti_0", exp := 2600000 }

/-- The stored, valid (not revoked, not expired) record of `r0`. -/
def r0rec : RefreshTokenRec :=
  { id := 1, userId := 1, tokenHash := hash_token r0, jti := "jti_0",
    expiresAt := 2600000, revokedAt := none, replacedBy := none }

/-- State: user 1 with the single valid session `r0`. -/
def db0 : DB :=
  { users := [u1], roles := [], userRoles := [], refreshTokens := [r0rec],
    resetTokens := [], audits := [], nextTokenId := 2, nonce := 1 }

/-- State after the first (successful) rotation of `r0` at time 1000. -/
def db1 : DB := (refresh_access_token db0 1000 r0).snd

/-- The raw refresh token `R1` returned by that rotation. -/
def r1 : String := "refresh|1|a@x.com|1|jti_1|2593000"

/-- C1: the claim says a second `refresh_access_token(R0)` fails with
TOKEN_REUSE_DETECTED and also revokes the record of R1.  At the concrete failing
input (user 1 holding valid stored token `r0`): the first call succeeds and
yields the pair with refresh token `r1`; the second call with `r0` fails
with INVALID_REFRESH_TOKEN, not TOKEN_REUSE_DETECTED, and the stored
record of `r1` (id 2) is left un-revoked — the family does not die.  The reuse
branch filters on `replaced_by IS NOT NULL`, but rotation stored
`replaced_by = NULL` (see `unflushed_record_id`), so it can never fire for a
legitimately rotated token. -/
theorem refresh_rotation_single_use_bug :
    (refresh_access_token db0 1000 r0).fst = .ok ("access_1", r1) ∧
    (refresh_access_token db1 2000 r0).fst = .error "INVALID_REFRESH_TOKEN" ∧
    "INVALID_REFRESH_TOKEN" ≠ "TOKEN_REUSE_DETECTED" ∧
    ((refresh_access_token db1 2000 r0).snd.refreshTokens.find?
        (fun t => t.id == 2)) =
      some { id := 2, userId := 1, tokenHash := hash_token r1, jti := "jti_1",
             expiresAt := 2593000, revokedAt := none, replacedBy := none } :=
  ⟨rfl, rfl, by decide, rfl⟩

/-- C2: the claim says the rotated-away record ends with `revoked_at = now`
and `replaced_by` equal to the non-null id of the new record.  After the
successful rotation of `r0`, the old record does have `revoked_at = 1000`,
and the new record is persisted for the same user with id 2, but
`replaced_by` is NULL: `new_token_record.id` is read between `db.add` and
`commit`, before the flush assigns the primary key. -/
theorem rotation_chain_link_bug :
    (refresh_access_token db0 1000 r0).fst = .ok ("access_1", r1) ∧
    (db1.refreshTokens.find? (fun t => t.id == 1)) =
      some { r0rec with revokedAt := some 1000, replacedBy := none } ∧
    (db1.refreshTokens.find? (fun t => t.id == 2)) =
      some { id := 2, userId := 1, tokenHash := hash_token r1, jti := "jti_1",
             expiresAt := 2593000, revokedAt := none, replacedBy := none } ∧
    ∀ t ∈ db1.refreshTokens, t.replacedBy = none :=
  ⟨rfl, rfl, rfl, by decide⟩

/-- Raw refresh token at the head of a three-link rotation chain. -/
def chainRaw : String :=
  encode_refresh_token
    { sub := 7, email := "c@x.com", ver := 1, jti := "cj1", exp := 9000000 }

/-- Head of the chain: already rotated (revoked, `replaced_by` = 12). -/
def chainT1 : RefreshTokenRec :=
  { id := 11, userId := 7, tokenHash := hash_token chainRaw, jti := "cj1",
    expiresAt := 9000000, revokedAt := some 10, replacedBy := some 12 }

/-- Middle of the chain: not yet revoked, `replaced_by` = 13. -/
def chainT2 : RefreshTokenRec :=
  { id := 12, userId := 7, tokenHash := "sha256:chain2", jti := "cj2",
    expiresAt := 9000000, revokedAt := none, replacedBy := some 13 }

/-- Tail of the chain: not yet revoked, live. -/
def chainT3 : RefreshTokenRec :=
  { id := 13, userId := 7, tokenHash := "sha256:chain3", jti := "cj3",
    expiresAt := 9000000, revokedAt := none, replacedBy := none }

/-- State holding the rotation chain 11 → 12 → 13 of user 7. -/
def dbChain : DB :=
  { users := [], roles := [], userRoles := [],
    refreshTokens := [chainT1, chainT2, chainT3],
    resetTokens := [], audits := [], nextTokenId := 14, nonce := 0 }

/-- C3: the claim says reuse detection revokes EVERY not-yet-revoked record
of the chain, for chains of any length including 3 or more.  Replaying the
already-rotated head of the chain 11 → 12 → 13 does take the reuse branch
(error and audit TOKEN_REUSE_DETECTED with status security_alert, as
claimed) and revokes the middle link 12, but the tail link 13 — reachable
forward via the `replaced_by` of 12 — is left un-revoked: `_revoke_token_family`
performs one query plus one hop, not an iterated chain walk. -/
theorem revoke_family_bounded_walk_bug :
    (refresh_access_token dbChain 100 chainRaw).fst = .error "TOKEN_REUSE_DETECTED" ∧
    (refresh_access_token dbChain 100 chainRaw).snd.audits =
      [{ userId := some 7, action := "TOKEN_REUSE_DETECTED", status := "security_alert" }] ∧
    chainT2.replacedBy = some chainT3.id ∧ chainT3.revokedAt = none ∧
    ((refresh_access_token dbChain 100 chainRaw).snd.refreshTokens.find?
        (fun t => t.id == 12)) = some { chainT2 with revokedAt := some 100 } ∧
    ((refresh_access_token dbChain 100 chainRaw).snd.refreshTokens.find?
        (fun t => t.id == 13)) = some chainT3 :=
  ⟨rfl, rfl, rfl, rfl, rfl, rfl⟩

/-- The plain backup code held by the MFA user. -/
def backupCode : String := "AAAA-BBBB"

/-- An MFA-enabled user whose stored backup-code set is the hashed form of
`backupCode`. -/
def mfaUser : UserRec :=
  { id := 3, email := "m@x.com", passwordHash := hash_password "Secret123!",
    passwordVersion := 1, isEmailVerified := true, mfaEnabled := true,
    mfaSecret := some "S3CR3T", backupCodes := hash_backup_codes [backupCode],
    status := .active, failedLoginAttempts := 0, lockedUntil := none,
    lastLoginAt := none }

/-- State containing only the MFA user. -/
def dbMfa : DB :=
  { users := [mfaUser], roles := [], userRoles := [], refreshTokens := [],
    resetTokens := [], audits := [], nextTokenId := 1, nonce := 0 }

/-- State after the first backup-code login. -/
def dbMfaAfter : DB :=
  (authenticate_user envNoTotp dbMfa 500 "m@x.com" "Secret123!" (some backupCode)).snd

/-- C4: the claim says the hash of a consumed backup code is removed from the
stored set, so a second login with the same code fails with
INVALID_MFA_CODE.  At the failing input: the first backup-code login
succeeds, but the eviction filter compares the stored HASHES against the
PLAIN code (`verify_mfa_code` returns the plain code in
`backup_code_used`), so nothing is removed — the hash is still in the
stored set and the second login with the same code succeeds as well. -/
theorem backup_code_reuse_bug :
    (authenticate_user envNoTotp dbMfa 500 "m@x.com" "Secret123!" (some backupCode)).fst =
      .ok ({ mfaUser with lastLoginAt := some 500 }, "access_0",
           "refresh|3|m@x.com|1|jti_0|2592500") ∧
    ((dbMfaAfter.users.find? (fun x => x.id == 3)).map
        (fun u => u.backupCodes.contains (hash_token (strip_dashes backupCode)))) =
      some true ∧
    (authenticate_user envNoTotp dbMfaAfter 600 "m@x.com" "Secret123!" (some backupCode)).fst =
      .ok ({ mfaUser with lastLoginAt := some 600 }, "access_1",
           "refresh|3|m@x.com|1|jti_1|2592600") :=
  ⟨rfl, rfl, rfl⟩

/-- C7: for every user id that refers to an existing user, `setup_mfa` does
NOT return the documented MFA setup response: the module-level `setup_mfa`
returns a plain tuple `(secret, qr_code, uri)`, and
`AuthService.setup_mfa` reads the attribute `secret` off that tuple, which
raises AttributeError — an uncaught crash, not the documented
USER_NOT_FOUND error. -/
theorem setup_mfa_attribute_error
    (db : DB) (userId : Nat) (secret : String) (backupCodes : List String)
    (u : UserRec)
    (hfind : db.users.find? (fun x => x.id == userId) = some u) :
    auth_setup_mfa db userId secret backupCodes = .attributeError "secret" := by
  unfold auth_setup_mfa
  rw [hfind]
  rfl

/-- Witness for C7 at a concrete existing user. -/
theorem setup_mfa_attribute_error_witness :
    auth_setup_mfa dbMfa 3 "JBSWY3DPEHPK3PXP" [] = .attributeError "secret" :=
  setup_mfa_attribute_error dbMfa 3 "JBSWY3DPEHPK3PXP" [] mfaUser rfl

/-- C8: the forgot-password route answers the same success-shaped message
whether or not the email is registered — the caller-visible response does
not depend on the email being registered — while the internal audit trail
distinguishes the two runs (status "success" with the user id for a
registered email, status "info" with no user id otherwise). -/
theorem forgot_password_anti_enumeration
    (dbA dbB : DB) (nowA nowB : Nat) (emailA emailB : String) (u : UserRec)
    (hA : dbA.users.find? (fun x => x.email == lower_str emailA) = some u)
    (hB : dbB.users.find? (fun x => x.email == lower_str emailB) = none) :
    (forgot_password dbA nowA emailA).fst = (forgot_password dbB nowB emailB).fst ∧
    (forgot_password dbA nowA emailA).snd.audits =
      dbA.audits ++
        [{ userId := some u.id, action := "PASSWORD_RESET_REQUESTED", status := "success" }] ∧
    (forgot_password dbB nowB emailB).snd.audits =
      dbB.audits ++
        [{ userId := none, action := "PASSWORD_RESET_REQUESTED", status := "info" }] := by
  refine ⟨rfl, ?_, ?_⟩
  · unfold forgot_password request_password_reset
    rw [hA]
    rfl
  · unfold forgot_password request_password_reset
    rw [hB]
    rfl

/-- An empty database (no users at all). -/
def dbEmpty : DB :=
  { users := [], roles := [], userRoles := [], refreshTokens := [],
    resetTokens := [], audits := [], nextTokenId := 1, nonce := 0 }

/-- Witness for C8: a registered and an unregistered email. -/
theorem forgot_password_anti_enumeration_witness :
    (forgot_password db0 50 "a@x.com").fst = (forgot_password dbEmpty 60 "b@x.com").fst ∧
    (forgot_password db0 50 "a@x.com").snd.audits =
      db0.audits ++
        [{ userId := some u1.id, action := "PASSWORD_RESET_REQUESTED", status := "success" }] ∧
    (forgot_password dbEmpty 60 "b@x.com").snd.audits =
      dbEmpty.audits ++
        [{ userId := none, action := "PASSWORD_RESET_REQUESTED", status := "info" }] :=
  forgot_password_anti_enumeration db0 dbEmpty 50 60 "a@x.com" "b@x.com" u1 rfl rfl

/-- C9: removing a role that is the only assigned role of a user is rejected
with a domain error — and, the session being rolled back, the assignments
are unchanged — while removing one of two or more assigned roles succeeds
and deletes exactly that assignment row. -/
theorem last_role_invariant
    (db : DB) (userId : Nat) (roleCode : String) (removedById : Nat)
    (u : UserRec) (role : RoleRec) (userRole : UserRoleRec)
    (hu : db.users.find? (fun x => x.id == userId) = some u)
    (hr : db.roles.find? (fun r => r.code == roleCode) = some role)
    (hur : db.userRoles.find? (fun x => x.userId == userId && x.roleId == role.id) =
      some userRole) :
    ((db.userRoles.filter (fun x => x.userId == userId)).length = 1 →
      remove_role db userId roleCode removedById =
        .error "Cannot remove last role. Assign another role first.") ∧
    (2 ≤ (db.userRoles.filter (fun x => x.userId == userId)).length →
      remove_role db userId roleCode removedById =
        .ok { db.addAudit
                { userId := some removedById, action := "ROLE_REMOVED", status := "success" }
              with userRoles := db.userRoles.filter (fun x => x.id != userRole.id) }) := by
  unfold remove_role
  simp only [hu, hr, hur]
  constructor
  · intro h1
    simp [h1]
  · intro h2
    have hne : ((db.userRoles.filter (fun x => x.userId == userId)).length == 1) = false := by
      simp only [beq_eq_false_iff_ne, ne_eq]
      omega
    rw [hne]
    simp

/-- A static VIEWER role. -/
def roleViewer : RoleRec := { id := 1, code := "VIEWER" }

/-- A static ADMIN role. -/
def roleAdmin : RoleRec := { id := 2, code := "ADMIN" }

/-- A user holding role assignments in the RBAC fixtures. -/
def user4 : UserRec := { u1 with id := 4, email := "r@x.com" }

/-- The assignment of VIEWER to user 4. -/
def ur41 : UserRoleRec := { id := 100, userId := 4, roleId := 1 }

/-- The assignment of ADMIN to user 4. -/
def ur42 : UserRoleRec := { id := 101, userId := 4, roleId := 2 }

/-- State where VIEWER is the only role of user 4. -/
def dbRoles1 : DB :=
  { dbEmpty with users := [user4], roles := [roleViewer, roleAdmin], userRoles := [ur41] }

/-- State where user 4 holds both VIEWER and ADMIN. -/
def dbRoles2 : DB :=
  { dbRoles1 with userRoles := [ur41, ur42] }

/-- Witness for C9: rejection with one role, success with two. -/
theorem last_role_invariant_witness :
    remove_role dbRoles1 4 "VIEWER" 9 =
      .error "Cannot remove last role. Assign another role first." ∧
    remove_role dbRoles2 4 "VIEWER" 9 =
      .ok { dbRoles2.addAudit
              { userId := some 9, action := "ROLE_REMOVED", status := "success" }
            with userRoles := dbRoles2.userRoles.filter (fun x => x.id != ur41.id) } :=
  ⟨(last_role_invariant dbRoles1 4 "VIEWER" 9 user4 roleViewer ur41 rfl rfl rfl).1 (by decide),
   (last_role_invariant dbRoles2 4 "VIEWER" 9 user4 roleViewer ur41 rfl rfl rfl).2 (by decide)⟩

/-- An MFA-enabled user sitting in an expired lockout (counter 5, lock until
time 50). -/
def lockedMfaUser : UserRec :=
  { id := 9, email := "l@x.com", passwordHash := hash_password "Pw123456!",
    passwordVersion := 1, isEmailVerified := true, mfaEnabled := true,
    mfaSecret := some "LSECRET", backupCodes := [], status := .locked,
    failedLoginAttempts := 5, lockedUntil := some 50, lastLoginAt := none }

/-- State containing only the expired-locked MFA user. -/
def dbLockedMfa : DB := { dbEmpty with users := [lockedMfaUser] }

/-- C10 counterexample: the claim says a correct-password, invalid-OTP
attempt leaves `failed_login_attempts`, `status` and `locked_until`
unchanged for EVERY MFA-enabled user.  For the expired-locked MFA user
(counter 5, status locked, lock until 50), the attempt at time 100 does
fail with INVALID_MFA_CODE, but the commit on that path persists the
auto-unlock performed earlier in the same call: the stored row ends with
counter 0, status active and no lock — all three fields changed. -/
theorem mfa_failure_frame_counterexample :
    (authenticate_user envNoTotp dbLockedMfa 100 "l@x.com" "Pw123456!" (some "000000")).fst =
      .error "INVALID_MFA_CODE" ∧
    ((authenticate_user envNoTotp dbLockedMfa 100 "l@x.com" "Pw123456!"
        (some "000000")).snd.users.find? (fun x => x.id == 9)) =
      some { lockedMfaUser with
             status := .active
             failedLoginAttempts := 0
             lockedUntil := none } ∧
    lockedMfaUser.failedLoginAttempts = 5 ∧ lockedMfaUser.status = .locked ∧
    lockedMfaUser.lockedUntil = some 50 :=
  ⟨rfl, rfl, rfl, rfl, rfl⟩

/-- Writing back an unmodified `users` row is a no-op when the primary key
determines the row. -/
theorem map_write_back {l : List UserRec} {u : UserRec}
    (hkey : ∀ x ∈ l, x.id = u.id → x = u) :
    l.map (fun x => if x.id == u.id then u else x) = l := by
  induction l with
  | nil => rfl
  | cons a t ih =>
    have htail := ih (fun x hx h => hkey x (List.mem_cons_of_mem a hx) h)
    simp only [List.map_cons, htail]
    by_cases h : a.id = u.id
    · have ha := hkey a (List.mem_cons_self a t) h
      rw [if_pos (by simp [h]), ha]
    · rw [if_neg (by simp [h])]

/-- C10 (amended): for an MFA-enabled user whose status is active at the
start of the attempt, a login in which the password verifies but the MFA
code is invalid fails with INVALID_MFA_CODE and changes nothing except
appending an MFA_FAILED audit record — in particular
`failed_login_attempts`, `status` and `locked_until` are untouched, so MFA
failures alone never transition an account to locked.  (A user in expired
lockout is first auto-unlocked, which resets those fields before the MFA
check — the counterexample above — so the frame statement holds for
active-status users.) -/
theorem mfa_failure_frame_amended
    (env : Env) (db : DB) (now : Nat) (email password code : String) (u : UserRec)
    (hfind : db.users.find? (fun x => x.email == lower_str email) = some u)
    (hkey : ∀ x ∈ db.users, x.id = u.id → x = u)
    (hactive : u.status = .active)
    (hpw : verify_password password u.passwordHash = true)
    (hmfa : u.mfaEnabled = true)
    (hbad : (verify_mfa_code env u.mfaSecret code u.backupCodes).valid = false) :
    authenticate_user env db now email password (some code) =
      (.error "INVALID_MFA_CODE",
        { db with audits := db.audits ++
            [{ userId := some u.id, action := "MFA_FAILED", status := "failure" }] }) := by
  unfold authenticate_user
  simp only [hfind]
  rw [if_neg (by rw [hactive]; decide)]
  unfold authenticate_user_checked
  rw [if_neg (by rw [hactive]; decide)]
  rw [hpw, if_neg (by decide), if_pos hmfa]
  simp only [hbad]
  rw [if_pos (by decide)]
  have husers : db.users.map (fun x => if x.id == u.id then u else x) = db.users :=
    map_write_back hkey
  simp only [DB.updateUser, DB.addAudit, husers]

/-- Witness for C10 (amended): the active MFA user with a wrong 6-digit
code. -/
theorem mfa_failure_frame_amended_witness :
    authenticate_user envNoTotp dbMfa 700 "m@x.com" "Secret123!" (some "999999") =
      (.error "INVALID_MFA_CODE",
        { dbMfa with audits := dbMfa.audits ++
            [{ userId := some 3, action := "MFA_FAILED", status := "failure" }] }) :=
  mfa_failure_frame_amended envNoTotp dbMfa 700 "m@x.com" "Secret123!" "999999" mfaUser
    rfl (by decide) rfl rfl rfl rfl

/-- C5: the lockout state machine for a wrong password.  For an active user
below the threshold, a wrong password only increments the counter; the 5th
consecutive failure (counter 4 before the attempt) transitions the account
to locked with `locked_until = now + 30` minutes; an attempt while locked
with the lock still in the future fails ACCOUNT_LOCKED and changes nothing
(in particular the counter is not incremented); and the first attempt after
the lock has expired first auto-unlocks (status active, counter reset) and
then goes through normal wrong-password handling, ending with counter 1 and
INVALID_CREDENTIALS. -/
theorem lockout_state_machine
    (env : Env) (db : DB) (now : Nat) (email password : String)
    (otp : Option String) (u : UserRec)
    (hfind : db.users.find? (fun x => x.email == lower_str email) = some u)
    (hwrong : verify_password password u.passwordHash = false) :
    (u.status = .active → u.failedLoginAttempts + 1 < MAX_FAILED_LOGIN_ATTEMPTS →
      authenticate_user env db now email password otp =
        (.error "INVALID_CREDENTIALS",
          (db.updateUser
            { u with failedLoginAttempts := u.failedLoginAttempts + 1 }).addAudit
            { userId := some u.id, action := "LOGIN_FAILED", status := "failure" })) ∧
    (u.status = .active → u.failedLoginAttempts = 4 →
      authenticate_user env db now email password otp =
        (.error "INVALID_CREDENTIALS",
          (db.updateUser
            { u with
              failedLoginAttempts := 5
              status := .locked
              lockedUntil := some (now + ACCOUNT_LOCKOUT_DURATION_MINUTES * 60) }).addAudit
            { userId := some u.id, action := "LOGIN_FAILED", status := "failure" })) ∧
    (∀ t, u.status = .locked → u.lockedUntil = some t → now < t →
      authenticate_user env db now email password otp = (.error "ACCOUNT_LOCKED", db)) ∧
    (u.status = .locked → (∀ t, u.lockedUntil = some t → t ≤ now) →
      authenticate_user env db now email password otp =
        (.error "INVALID_CREDENTIALS",
          (db.updateUser
            { u with status := .active, failedLoginAttempts := 1, lockedUntil := none }).addAudit
            { userId := some u.id, action := "LOGIN_FAILED", status := "failure" })) := by
  refine ⟨?_, ?_, ?_, ?_⟩
  · intro hst hlt
    unfold authenticate_user
    simp only [hfind]
    rw [if_neg (by rw [hst]; decide)]
    unfold authenticate_user_checked
    rw [if_neg (by rw [hst]; decide)]
    rw [hwrong, if_pos (by decide)]
    rw [if_neg (by omega)]
  · intro hst h4
    unfold authenticate_user
    simp only [hfind]
    rw [if_neg (by rw [hst]; decide)]
    unfold authenticate_user_checked
    rw [if_neg (by rw [hst]; decide)]
    rw [hwrong, if_pos (by decide)]
    rw [h4, if_pos (by decide)]
  · intro t hst hlu hfut
    unfold authenticate_user
    simp only [hfind]
    rw [if_pos hst]
    rw [if_pos (by simp only [locked_until_in_future, hlu]; simp [hfut])]
  · intro hst hexp
    unfold authenticate_user
    simp only [hfind]
    rw [if_pos hst]
    have hliff : locked_until_in_future u.lockedUntil now = false := by
      unfold locked_until_in_future
      cases hlu : u.lockedUntil with
      | none => rfl
      | some t =>
        have ht := hexp t hlu
        simp only [decide_eq_false_iff_not]
        omega
    rw [if_neg (by rw [hliff]; decide)]
    unfold authenticate_user_checked
    rw [if_neg (by simp)]
    dsimp only
    rw [hwrong, if_pos (by decide), if_neg (by decide)]

/-- A user with an active account sitting one failure below the lockout
threshold. -/
def u4fails : UserRec :=
  { u1 with id := 21, email := "k@x.com", failedLoginAttempts := 4 }

/-- State containing only `u4fails`. -/
def dbLock : DB := { dbEmpty with users := [u4fails] }

/-- Witness for C5: the 5th consecutive wrong password locks the account
until now + 30 minutes. -/
theorem lockout_state_machine_witness :
    authenticate_user envNoTotp dbLock 100 "k@x.com" "wrong-pass" none =
      (.error "INVALID_CREDENTIALS",
        (dbLock.updateUser
          { u4fails with
            failedLoginAttempts := 5
            status := .locked
            lockedUntil := some (100 + ACCOUNT_LOCKOUT_DURATION_MINUTES * 60) }).addAudit
          { userId := some 21, action := "LOGIN_FAILED", status := "failure" }) :=
  (lockout_state_machine envNoTotp dbLock 100 "k@x.com" "wrong-pass" none u4fails
    rfl rfl).2.1 rfl rfl

/-- The user whose password gets reset in the reset fixtures. -/
def resetUser : UserRec :=
  { id := 5, email := "p@x.com", passwordHash := hash_password "OldSecret1!",
    passwordVersion := 1, isEmailVerified := true, mfaEnabled := false,
    mfaSecret := none, backupCodes := [], status := .active,
    failedLoginAttempts := 0, lockedUntil := none, lastLoginAt := none }

/-- A raw refresh token of the reset user, embedding password version 1. -/
def pr0 : String :=
  encode_refresh_token
    { sub := 5, email := "p@x.com", ver := 1, jti := "pj0", exp := 8000000 }

/-- The stored, valid record of `pr0`. -/
def pr0rec : RefreshTokenRec :=
  { id := 31, userId := 5, tokenHash := hash_token pr0, jti := "pj0",
    expiresAt := 8000000, revokedAt := none, replacedBy := none }

/-- A valid (unused, unexpired) password-reset token for the reset user. -/
def resetTokRec : PasswordResetTokenRec :=
  { userId := 5, tokenHash := hash_token "rsttok", expiresAt := 5000, usedAt := none }

/-- State for the reset scenario. -/
def dbReset : DB :=
  { users := [resetUser], roles := [], userRoles := [], refreshTokens := [pr0rec],
    resetTokens := [resetTokRec], audits := [], nextTokenId := 32, nonce := 0 }

/-- State after the successful password reset at time 100. -/
def dbAfterReset : DB := (reset_password dbReset 100 "rsttok" "NewSecret123!").snd

/-- C6 counterexample: the claim says that after a successful reset, a
refresh call presenting a token embedding the OLD password version fails
with PASSWORD_CHANGED.  At the concrete input: the reset succeeds (version
1 → 2), but the subsequent refresh with the old token `pr0` fails with
INVALID_REFRESH_TOKEN — the reset revoked the stored record of the token, so the
lookup-validity check fires first and the PASSWORD_CHANGED comparison is
never reached. -/
theorem password_reset_fence_counterexample :
    (reset_password dbReset 100 "rsttok" "NewSecret123!").fst =
      .ok { resetUser with passwordHash := hash_password "NewSecret123!",
                           passwordVersion := 2 } ∧
    (refresh_access_token dbAfterReset 200 pr0).fst = .error "INVALID_REFRESH_TOKEN" ∧
    "INVALID_REFRESH_TOKEN" ≠ "PASSWORD_CHANGED" :=
  ⟨rfl, rfl, by decide⟩

/-- Rows of the post-reset refresh-token table come from rows of the
pre-reset table with the same `user_id` and `replaced_by`; rows of the
reset user are revoked. -/
theorem revoke_map_preserves {l : List RefreshTokenRec} {uid now : Nat}
    {t : RefreshTokenRec}
    (hmem : t ∈ l.map (fun x =>
      if x.userId == uid && x.revokedAt == none then { x with revokedAt := some now }
      else x)) :
    ∃ x ∈ l, t.userId = x.userId ∧ t.replacedBy = x.replacedBy ∧
      (t.userId = uid → t.revokedAt ≠ none) := by
  obtain ⟨x, hx, hfx⟩ := List.mem_map.mp hmem
  refine ⟨x, hx, ?_⟩
  by_cases hc : (x.userId == uid && x.revokedAt == none) = true
  · rw [if_pos hc] at hfx
    subst hfx
    refine ⟨rfl, rfl, fun _ => ?_⟩
    simp
  · rw [if_neg hc] at hfx
    subst hfx
    refine ⟨rfl, rfl, fun hu hnone => ?_⟩
    exact hc (by simp [hu, hnone])

/-- A refresh-token row with a set `revoked_at` is never `is_valid`. -/
theorem is_valid_false_of_revoked {t : RefreshTokenRec} (h : t.revokedAt ≠ none)
    (now : Nat) : t.is_valid now = false := by
  unfold RefreshTokenRec.is_valid
  cases hr : t.revokedAt with
  | none => exact absurd hr h
  | some x => rfl

/-- C6 (amended): a successful `reset_password` with a valid token and a
strong-enough password bumps `password_version` by 1, marks the reset token
used, and revokes every not-yet-revoked refresh token of the user; and
afterwards — provided, as rotation in this code guarantees, no row of the
user carries a `replaced_by` link — ANY refresh call presenting a
refresh token of that user fails, with error code INVALID_REFRESH_TOKEN
rather than PASSWORD_CHANGED: the revoked stored record fails the validity
check before the password-version comparison is reached. -/
theorem password_reset_fence_amended
    (db : DB) (now : Nat) (token newPassword : String)
    (rt : PasswordResetTokenRec) (u : UserRec)
    (hstrong : validate_password_strength_valid newPassword = true)
    (hfind : db.resetTokens.find?
      (fun t => t.tokenHash == hash_token token && t.usedAt == none) = some rt)
    (hvalid : rt.is_valid now = true)
    (huser : db.users.find? (fun x => x.id == rt.userId) = some u)
    (hnolink : ∀ t ∈ db.refreshTokens, t.userId = u.id → t.replacedBy = none) :
    (reset_password db now token newPassword).fst =
      .ok { u with passwordHash := hash_password newPassword,
                   passwordVersion := u.passwordVersion + 1 } ∧
    (reset_password db now token newPassword).snd.resetTokens =
      db.resetTokens.map (fun t =>
        if t.tokenHash == hash_token token then { t with usedAt := some now } else t) ∧
    (reset_password db now token newPassword).snd.refreshTokens =
      db.refreshTokens.map (fun t =>
        if t.userId == u.id && t.revokedAt == none then { t with revokedAt := some now }
        else t) ∧
    (∀ s now2 p, verify_refresh_token s now2 = some p → p.sub = u.id →
      (refresh_access_token (reset_password db now token newPassword).snd now2 s).fst =
        .error "INVALID_REFRESH_TOKEN") := by
  unfold reset_password
  rw [hstrong, if_neg (by decide)]
  simp only [hfind]
  rw [hvalid, if_neg (by decide)]
  simp only [huser]
  refine ⟨by trivial, by trivial, by trivial, ?_⟩
  intro s now2 p hdec hsub
  unfold refresh_access_token
  simp only [hdec, hsub]
  dsimp only [DB.updateUser, DB.addAudit]
  cases hfound : (db.refreshTokens.map (fun t =>
      if t.userId == u.id && t.revokedAt == none then { t with revokedAt := some now }
      else t)).find? (fun t => t.tokenHash == hash_token s && t.userId == u.id) with
  | none =>
    simp only [hfound]
    rw [List.find?_eq_none.mpr ?reuse]
    case reuse =>
      intro t hmem
      obtain ⟨x, hx, hux, hrb, _⟩ := revoke_map_preserves hmem
      by_cases hu2 : t.userId = u.id
      · have : t.replacedBy = none := hrb ▸ hnolink x hx (hux ▸ hu2)
        simp [this]
      · simp [hu2]
  | some t0 =>
    have hpred := List.find?_some hfound
    have huid : t0.userId = u.id := by
      have := (Bool.and_eq_true _ _).mp hpred
      exact beq_iff_eq.mp this.2
    have hrevoked : t0.revokedAt ≠ none := by
      obtain ⟨x, hx, hux, hrb, hrev⟩ :=
        revoke_map_preserves (List.mem_of_find?_eq_some hfound)
      exact hrev huid
    simp only [hfound, is_valid_false_of_revoked hrevoked]
    rw [List.find?_eq_none.mpr ?reuse2]
    case reuse2 =>
      intro t hmem
      obtain ⟨x, hx, hux, hrb, _⟩ := revoke_map_preserves hmem
      by_cases hu2 : t.userId = u.id
      · have : t.replacedBy = none := hrb ▸ hnolink x hx (hux ▸ hu2)
        simp [this]
      · simp [hu2]
    rfl

/-- Witness for C6 (amended) at the concrete reset scenario. -/
theorem password_reset_fence_amended_witness :
    (reset_password dbReset 100 "rsttok" "NewSecret123!").fst =
      .ok { resetUser with passwordHash := hash_password "NewSecret123!",
                           passwordVersion := resetUser.passwordVersion + 1 } :=
  (password_reset_fence_amended dbReset 100 "rsttok" "NewSecret123!" resetTokRec
    resetUser rfl rfl rfl rfl (by decide)).1

end PlayCricket
